import Mathlib

/-!
# gdnotify — verification of the channel store, change puller, webhook and emitter

Shallow embedding of the `gdnotify` repository (Google Drive change notifier).
Timestamps are modelled as integers (milliseconds since epoch, matching the
DynamoDB numeric attributes).  The two `Storage` backends
(`DynamoDBStorage` in `storage.go` and `FileStorage` in `storage.go`) are
modelled over a list of `ChannelItem` records: the DynamoDB table is keyed by
`ChannelID` (unique keys), so its conditional operations act on the first — by
the key schema the only — record with the matching `ChannelID`.
Every operation returns a `StoreOutcome`: the Go error (or `none`) together
with the post-state of the store; a failed conditional write leaves the
store unchanged.
-/

set_option maxRecDepth 16384

namespace Gdnotify

/-- Embeds `ChannelItem` from `storage.go` lines 33-42.  `time.Time` fields are
modelled as milliseconds since epoch (`Int`), as stored in DynamoDB. -/
structure ChannelItem where
  channelID : String
  expiration : Int
  pageToken : String
  resourceID : String
  driveID : String
  pageTokenFetchedAt : Int
  createdAt : Int
  updatedAt : Int
  deriving Repr, DecidableEq

/-- The error values surfaced by the storage and Drive-API layers:
`ChannelNotFoundError` and `ChannelAlreadyExists` from `storage.go`,
DynamoDB's `ConditionalCheckFailedException`, and opaque transport errors. -/
inductive GdError where
  | channelNotFound (channelID : String)
  | channelAlreadyExists (channelID : String)
  | conditionalCheckFailed
  | apiError (msg : String)
  | ioError (msg : String)
  deriving Repr, DecidableEq

/-- Result of one storage operation: the returned error (`none` = Go `nil`)
and the store contents afterwards. -/
structure StoreOutcome where
  err : Option GdError
  items : List ChannelItem
  deriving Repr, DecidableEq

/-- Embeds `DynamoDBStorage.UpdatePageToken` (`storage.go` lines 372-399): an
`UpdateItem` keyed by `ChannelID` with condition
`attribute_exists(ChannelID) AND UpdatedAt < :UpdatedAt` and update
`SET PageToken=:PageToken, UpdatedAt=:UpdatedAt`.  The table has unique
`ChannelID` keys, so the first match in the list model is the keyed record;
a failed condition leaves the table unchanged and returns the error. -/
def dynamoUpdatePageToken (target : ChannelItem) : List ChannelItem → StoreOutcome
  | [] => ⟨some .conditionalCheckFailed, []⟩
  | c :: rest =>
    if c.channelID = target.channelID then
      if c.updatedAt < target.updatedAt then
        ⟨none, { c with pageToken := target.pageToken, updatedAt := target.updatedAt } :: rest⟩
      else
        ⟨some .conditionalCheckFailed, c :: rest⟩
    else
      let o := dynamoUpdatePageToken target rest
      ⟨o.err, c :: o.items⟩

/-- Embeds `FileStorage.UpdatePageToken` (`storage.go` lines 486-498): scans
`s.Items`; on the first record with the matching `ChannelID` it sets that
record's `PageToken` (and nothing else) and returns `nil`; if no record
matches it returns `ChannelNotFoundError`.  There is no `UpdatedAt`
comparison and `UpdatedAt` is not written. -/
def fileUpdatePageToken (target : ChannelItem) : List ChannelItem → StoreOutcome
  | [] => ⟨some (.channelNotFound target.channelID), []⟩
  | c :: rest =>
    if c.channelID = target.channelID then
      ⟨none, { c with pageToken := target.pageToken } :: rest⟩
    else
      let o := fileUpdatePageToken target rest
      ⟨o.err, c :: o.items⟩

/-- Embeds `DynamoDBStorage.SaveChannel` (`storage.go` lines 351-370): `PutItem`
with condition `attribute_not_exists(ChannelID)`; a condition failure is
mapped to `ChannelAlreadyExists` and the table is unchanged. -/
def dynamoSaveChannel (item : ChannelItem) (store : List ChannelItem) : StoreOutcome :=
  if store.any (fun c => c.channelID = item.channelID) then
    ⟨some (.channelAlreadyExists item.channelID), store⟩
  else
    ⟨none, store ++ [item]⟩

/-- The item-list transformation of `FileStorage.SaveChannel`
(`storage.go` lines 473-484): the first record with the same `ChannelID`
is replaced wholesale by `item`; if none matches, `item` is appended. -/
def fileSaveChannelItems (item : ChannelItem) : List ChannelItem → List ChannelItem
  | [] => [item]
  | c :: rest =>
    if c.channelID = item.channelID then
      item :: rest
    else
      c :: fileSaveChannelItems item rest

/-- Embeds `FileStorage.SaveChannel` (`storage.go` lines 473-484): always returns
`nil` — an existing record with the same `ChannelID` is overwritten. -/
def fileSaveChannel (item : ChannelItem) (store : List ChannelItem) : StoreOutcome :=
  ⟨none, fileSaveChannelItems item store⟩

/-- Embeds `DynamoDBStorage.DeleteChannel` (`storage.go` lines 401-418):
`DeleteItem` keyed by `ChannelID` with condition
`attribute_exists(ChannelID)`; deleting an absent key returns the
condition-failed error and leaves the table unchanged. -/
def dynamoDeleteChannel (target : ChannelItem) : List ChannelItem → StoreOutcome
  | [] => ⟨some .conditionalCheckFailed, []⟩
  | c :: rest =>
    if c.channelID = target.channelID then
      ⟨none, rest⟩
    else
      let o := dynamoDeleteChannel target rest
      ⟨o.err, c :: o.items⟩

/-- Embeds `FileStorage.DeleteChannel` (`storage.go` lines 500-510): removes the
first record whose `ChannelID` equals the target's and returns `nil`; when
no record matches, the loop falls through and the function still returns
`nil` with the item list untouched. -/
def fileDeleteChannel (target : ChannelItem) : List ChannelItem → StoreOutcome
  | [] => ⟨none, []⟩
  | c :: rest =>
    if target.channelID = c.channelID then
      ⟨none, rest⟩
    else
      let o := fileDeleteChannel target rest
      ⟨o.err, c :: o.items⟩

/-- Embeds `FileStorage.FindOneByChannelID` (`storage.go` lines 512-529): first
record with the matching `ChannelID`, else `ChannelNotFoundError`. -/
def findOneByChannelID (store : List ChannelItem) (channelID : String) :
    Except GdError ChannelItem :=
  match store with
  | [] => .error (.channelNotFound channelID)
  | c :: rest =>
    if c.channelID = channelID then .ok c else findOneByChannelID rest channelID

/-! ## Drive changes and the event payload types (`pkg/gdnotifyevent`, `convert.go`) -/

/-- Embeds `drive.User` restricted to the fields the event pipeline reads. -/
structure DUser where
  kind : String
  displayName : String
  emailAddress : String
  deriving Repr, DecidableEq

/-- Embeds `drive.File` restricted to the fields the event pipeline reads. -/
structure DFile where
  id : String
  name : String
  mimeType : String
  modifiedTime : String
  trashedTime : String
  createdTime : String
  trashed : Bool
  lastModifyingUser : Option DUser
  trashingUser : Option DUser
  deriving Repr, DecidableEq

/-- Embeds `drive.Drive` restricted to the fields the event pipeline reads. -/
structure DDrive where
  id : String
  kind : String
  name : String
  createdTime : String
  deriving Repr, DecidableEq

/-- Embeds `drive.Change` / `gdnotifyevent.Change`: one entry of a
`changes.list` response.  Go nil pointers become `Option`. -/
structure GChange where
  kind : String
  changeType : String
  time : String
  removed : Bool
  fileID : String
  file : Option DFile
  driveID : String
  driveObj : Option DDrive
  deriving Repr, DecidableEq

/-- Embeds `gdnotifyevent.Entity`: the id/kind/name/createdTime projection of the
changed drive or file. -/
structure GEntity where
  id : String
  kind : String
  name : String
  createdTime : String
  deriving Repr, DecidableEq

/-- Embeds `gdnotifyevent.Detail`: the emitted event detail. -/
structure GDetail where
  subject : String
  entity : Option GEntity
  actor : Option DUser
  change : Option GChange
  deriving Repr, DecidableEq

/-! ## The change puller (`app.go` `App.changesList`, lines 583-627)

One `changes.list` response carries a batch of changes, a `nextPageToken`
(empty on the final page) and a `newStartPageToken`.  The Drive API is
modelled as a function from the requested page token to the response for
that token; the Go `for nextPageToken != ""` loop is embedded with explicit
fuel, `none` meaning the fuel ran out before the loop finished (no Go
behaviour corresponds to `none`; theorems quantify over runs that finish). -/

/-- A `changes.list` response (`drive.ChangeList` restricted to the fields
`app.go` reads). -/
structure ChangePage where
  changes : List GChange
  nextPageToken : String
  newStartPageToken : String
  deriving Repr, DecidableEq

/-- The paging loop of `App.changesList` (`app.go` lines 587-618): request
the current token; on error stop with that error; append the page's
changes; the `newStartPageToken` variable is overwritten on every page, so
the value after the loop is the final page's; continue while
`nextPageToken` is nonempty. -/
def changesPull (api : String → Except GdError ChangePage) :
    Nat → String → Option (Except GdError (List GChange × String))
  | 0, _ => none
  | fuel + 1, token =>
    match api token with
    | .error e => some (.error e)
    | .ok page =>
      if page.nextPageToken = "" then
        some (.ok (page.changes, page.newStartPageToken))
      else
        match changesPull api fuel page.nextPageToken with
        | none => none
        | some (.error e) => some (.error e)
        | some (.ok (rest, newStart)) => some (.ok (page.changes ++ rest, newStart))

/-- Observation: the sequence of pages read by a terminating, fully
successful run of the paging loop (same traversal as `changesPull`). -/
def changesPullPages (api : String → Except GdError ChangePage) :
    Nat → String → Option (List ChangePage)
  | 0, _ => none
  | fuel + 1, token =>
    match api token with
    | .error _ => none
    | .ok page =>
      if page.nextPageToken = "" then
        some [page]
      else
        (changesPullPages api fuel page.nextPageToken).map (page :: ·)

/-- Observation: the page tokens requested from the Drive API by the
paging loop (same traversal as `changesPull`). -/
def changesPullTokens (api : String → Except GdError ChangePage) :
    Nat → String → List String
  | 0, _ => []
  | fuel + 1, token =>
    token ::
      match api token with
      | .error _ => []
      | .ok page =>
        if page.nextPageToken = "" then []
        else changesPullTokens api fuel page.nextPageToken

/-- What one call of `App.changesList` did: its return value, the store
afterwards, and the arguments of the `Storage.UpdatePageToken` calls it
issued (the Go function issues at most one, at `app.go` line 623). -/
structure ChangesListResult where
  result : Except GdError (List GChange × ChannelItem)
  store : List ChannelItem
  updateCalls : List ChannelItem
  deriving Repr

/-- Embeds `App.changesList` (`app.go` lines 583-627): run the paging loop from
`item.PageToken`; on a page error return it (collected changes discarded,
no store call).  Otherwise build `newItem` as a copy of `item` with
`PageToken ← newStartPageToken` and `UpdatedAt ← flextime.Now()` (the
`now` argument), call `Storage.UpdatePageToken(newItem)` (the `upd`
argument selects the backend), propagate its error, and on success return
`(changes, newItem)`. -/
def appChangesList (api : String → Except GdError ChangePage) (fuel : Nat)
    (upd : ChannelItem → List ChannelItem → StoreOutcome)
    (store : List ChannelItem) (item : ChannelItem) (now : Int) :
    Option ChangesListResult :=
  match changesPull api fuel item.pageToken with
  | none => none
  | some (.error e) => some ⟨.error e, store, []⟩
  | some (.ok (changes, newStart)) =>
    let newItem := { item with pageToken := newStart, updatedAt := now }
    let o := upd newItem store
    match o.err with
    | some e => some ⟨.error e, o.items, [newItem]⟩
    | none => some ⟨.ok (changes, newItem), o.items, [newItem]⟩

/-! ## Detail-type derivation (`convert.go` lines 183-222) -/

/-- The `DetailType*` constants (`const` block next to `convert.go`). -/
def DetailTypeFileRemoved : String := "File Removed"

def DetailTypeFileTrashed : String := "File Move to trash"

def DetailTypeFileChanged : String := "File Changed"

def DetailTypeDriveRemoved : String := "Shared Drive Removed"

def DetailTypeDriveChanged : String := "Drive Status Changed"

/-- Embeds `DetailType` (`convert.go` lines 184-208): the EventBridge detail-type
for a change; a nil change gives "Unexpected Changed". -/
def DetailType : Option GChange → String
  | none => "Unexpected Changed"
  | some c =>
    match c.changeType with
    | "file" =>
      if c.removed then DetailTypeFileRemoved
      else if (match c.file with | some f => f.trashed | none => false) then
        DetailTypeFileTrashed
      else DetailTypeFileChanged
    | "drive" =>
      if c.removed then DetailTypeDriveRemoved else DetailTypeDriveChanged
    | _ => "Unexpected Changed"

/-- Embeds `eventSource` (`convert.go` lines 210-222): the event source string. -/
def eventSource (sourcePre : String) : Option GChange → String
  | none => sourcePre
  | some c =>
    match c.changeType with
    | "file" => sourcePre ++ "/file/" ++ c.fileID
    | "drive" => sourcePre ++ "/drive/" ++ c.driveID
    | _ => sourcePre ++ "/" ++ c.changeType

/-! ## The EventBridge emitter (`notification.go`, current version,
`EventBridgeNotification.SendChanges` lines 237-292) -/

/-- A `PutEventsRequestEntry` restricted to the fields the claims examine
(the bus name, source and detail-type; the full entry also carries the
JSON-marshalled detail and the parsed change time). -/
structure EBEntry where
  eventBusName : String
  source : String
  detailType : String
  detail : GDetail
  deriving Repr, DecidableEq

/-- One per-entry result of a `PutEvents` response. -/
structure PutResult where
  errorCode : Option String
  errorMessage : String
  eventID : Option String
  deriving Repr, DecidableEq

/-- Helper for `chunk10`: `cur` is the batch being filled (reversed),
`k` the remaining capacity of that batch. -/
def chunk10Go (cur : List α) (k : Nat) : List α → List (List α)
  | [] => [cur.reverse]
  | x :: xs =>
    match k with
    | 0 => cur.reverse :: chunk10Go [x] 9 xs
    | k + 1 => chunk10Go (x :: cur) k xs

/-- Embeds `slices.Chunk(xs, 10)` / `lo.Chunk(xs, 10)`: split into batches of at
most ten entries; an empty list yields no batches. -/
def chunk10 : List α → List (List α)
  | [] => []
  | x :: xs => chunk10Go [x] 9 xs

/-- The entry `convertor` of `EventBridgeNotification.SendChanges`
(`notification.go` lines 239-268), restricted to the fields of `EBEntry`:
`source` and `detail-type` are derived from the change via `eventSource`
and `DetailType` with the source prefix `oss.gdnotify/<DriveID>`. -/
def ebEntryOf (eventBus : String) (driveID : String) (d : GDetail) : EBEntry :=
  ⟨eventBus, eventSource ("oss.gdnotify/" ++ driveID) d.change, DetailType d.change, d⟩

/-- Embeds `EventBridgeNotification.SendChanges` (`notification.go` lines
237-292): convert every detail to an entry, batch the entries ten at a
time, and submit one `PutEvents` call per batch (the `put` argument);
a transport error on a batch or a per-entry error code becomes the
remembered last error; the call list and the returned error are the
observables.  An empty detail list produces no batches, hence no calls,
and returns `nil`. -/
def ebSendChanges (put : List EBEntry → Except GdError (List PutResult))
    (eventBus : String) (item : ChannelItem) (details : List GDetail) :
    List (List EBEntry) × Option GdError :=
  let chunks := chunk10 (details.map (ebEntryOf eventBus item.driveID))
  let lastErr := chunks.foldl
    (fun acc entries =>
      match put entries with
      | .error e => some e
      | .ok results =>
        results.foldl
          (fun a r =>
            match r.errorCode with
            | some code => some (.apiError ("put events failed error_code=" ++ code))
            | none => a)
          acc)
    none
  (chunks, lastErr)

/-! ## The file emitter (`notification.go`, current version,
`FileNotification.SendChanges` lines 310-334) -/

/-- What one `FileNotification.SendChanges` call did.  `openAttempted`
records that `os.OpenFile(eventFile, O_RDWR|O_CREATE|O_APPEND, 0666)` was
executed (which creates the file when absent). -/
structure FileSendOutcome where
  openAttempted : Bool
  written : List GDetail
  result : Option GdError
  deriving Repr, DecidableEq

/-- Embeds `FileNotification.SendChanges` (`notification.go` lines 310-334): the
event file is opened (created if absent) unconditionally, before the
detail list is examined; an open error is returned directly; then each
detail is JSON-encoded to the file, an encode failure (the `encodeErr`
argument) being remembered as the last error while later records still
proceed. -/
def fileSendChanges (openRes : Except GdError Unit)
    (encodeErr : GDetail → Option GdError) (details : List GDetail) :
    FileSendOutcome :=
  match openRes with
  | .error e => ⟨true, [], some e⟩
  | .ok _ =>
    ⟨true, details.filter (fun d => encodeErr d = none),
      details.foldl
        (fun acc d => match encodeErr d with | some e => some e | none => acc)
        none⟩

/-! ## Drive download / export selection (`drive_download.go`, `s3_copier.go`) -/

/-- Embeds `strings.HasPrefix(s, pre)`, modelled over the character lists so that
proofs can evaluate it on concrete strings. -/
def goHasPre (pre s : String) : Bool :=
  pre.data.isPrefixOf s.data

/-- Embeds `strings.ToLower`, modelled over the character list so that proofs can
evaluate it on concrete strings (the format tokens are ASCII). -/
def goToLower (s : String) : String :=
  ⟨s.data.map Char.toLower⟩

/-- Embeds `ExportMIMETypes` (`drive_download.go` lines 14-29), as a lookup. -/
def exportMIMETypes : String → Option String
  | "pdf" => some "application/pdf"
  | "xlsx" => some "application/vnd.openxmlformats-officedocument.spreadsheetml.sheet"
  | "docx" => some "application/vnd.openxmlformats-officedocument.wordprocessingml.document"
  | "pptx" => some "application/vnd.openxmlformats-officedocument.presentationml.presentation"
  | "csv" => some "text/csv"
  | "txt" => some "text/plain"
  | "html" => some "text/html"
  | "rtf" => some "application/rtf"
  | "odt" => some "application/vnd.oasis.opendocument.text"
  | "ods" => some "application/vnd.oasis.opendocument.spreadsheet"
  | "odp" => some "application/vnd.oasis.opendocument.presentation"
  | "png" => some "image/png"
  | "jpeg" => some "image/jpeg"
  | "svg" => some "image/svg+xml"
  | _ => none

/-- Embeds `IsGoogleWorkspaceFile` (`drive_download.go` lines 81-83):
`strings.HasPrefix(mimeType, "application/vnd.google-apps.")`. -/
def isGoogleWorkspaceFile (mimeType : String) : Bool :=
  goHasPre "application/vnd.google-apps." mimeType

/-- Which upstream Drive endpoint a download step hits:
`files.export(fileID, mimeType)` or `files.get(fileID)` with a direct
media download. -/
inductive DownloadAction where
  | exportCall (fileID : String) (mimeType : String)
  | downloadCall (fileID : String)
  deriving Repr, DecidableEq

/-- Embeds `DriveDownloader.DownloadOrExport` (`drive_download.go` lines 88-96)
composed with `Export` (lines 64-78): Google Workspace files are exported
in the requested format (default `pdf`; an unknown format token is an
error); every other file is downloaded directly — the `exportFormat`
argument is not consulted for non-workspace files. -/
def downloadOrExport (fileID fileMimeType exportFormat : String) :
    Except GdError DownloadAction :=
  if isGoogleWorkspaceFile fileMimeType then
    let fmt := if exportFormat = "" then "pdf" else exportFormat
    match exportMIMETypes (goToLower fmt) with
    | none => .error (.apiError ("unsupported export format: " ++ fmt))
    | some m => .ok (.exportCall fileID m)
  else
    .ok (.downloadCall fileID)

/-- One rule of the S3 copy configuration, restricted to the fields the
download-selection step reads. -/
structure S3CopyRule where
  skipFlag : Bool
  exportFormat : String
  deriving Repr, DecidableEq

/-- Embeds `S3Copier.getFileID` (`s3_copier.go` lines 129-137): prefer
`change.fileId`, fall back to `entity.id`, else empty. -/
def getFileID (detail : GDetail) : String :=
  match detail.change with
  | some c =>
    if c.fileID ≠ "" then c.fileID
    else
      match detail.entity with
      | some e => if e.id ≠ "" then e.id else ""
      | none => ""
  | none =>
    match detail.entity with
    | some e => if e.id ≠ "" then e.id else ""
    | none => ""

/-- Embeds `S3Copier.getFileMimeType` (`s3_copier.go` lines 139-144). -/
def getFileMimeType (detail : GDetail) : String :=
  match detail.change with
  | some c => (match c.file with | some f => f.mimeType | none => "")
  | none => ""

/-- The download-selection slice of `S3Copier.Copy` (`s3_copier.go` lines
75-98), reached after a non-skip rule matched a non-removed change: resolve
the file id (empty id aborts the copy) and hand
`(fileID, fileMimeType, rule.Export)` to `DownloadOrExport`. -/
def copierDownloadStep (rule : S3CopyRule) (detail : GDetail) :
    Except GdError DownloadAction :=
  let fileID := getFileID detail
  if fileID = "" then .error (.apiError "no file ID found in detail")
  else downloadOrExport fileID (getFileMimeType detail) rule.exportFormat

/-! ## The maintenance rotation decision (`app.go` `App.maintenanceChannels`
lines 319-352; identically in the earlier revision of the file) -/

/-- Embeds `ChannelItem.IsAboutToExpired` (`storage.go` lines 44-56):
`Expiration - now ≤ remaining`. -/
def isAboutToExpired (now remaining : Int) (item : ChannelItem) : Bool :=
  item.expiration - now ≤ remaining

/-- The channel-level operations the rotation phase performs for one
DriveID. -/
inductive MaintAction where
  | rotate (item : ChannelItem)
  | deleteBestEffort (item : ChannelItem)
  deriving Repr, DecidableEq

/-- The per-DriveID body of the rotation phase of `maintenanceChannels`
(`app.go` lines 320-352): `rotationTargets` are the channels for which
`IsAboutToExpired(rotateRemaining)` holds, in iteration order, and
`noRotateExists` records whether any channel is not about to expire; the
drive is skipped when `noRotateExists` holds and there are no targets; the
spawned goroutine returns immediately when there are no targets, and
otherwise rotates the first target and best-effort-deletes the remaining
targets. -/
def maintenanceRotationActions (now remaining : Int) (channels : List ChannelItem) :
    List MaintAction :=
  let rotationTargets := channels.filter (isAboutToExpired now remaining)
  let noRotateExists := channels.any (fun c => ¬ isAboutToExpired now remaining c)
  if noRotateExists ∧ rotationTargets = [] then []
  else
    match rotationTargets with
    | [] => []
    | t :: rest => .rotate t :: rest.map .deleteBestEffort

/-! ## The webhook handler (`App.handleWebhook`, current revision of the
webhook routing file, lines 118-185) -/

/-- The request headers the poke endpoint consumes. -/
structure WebhookRequest where
  userAgent : String
  state : String
  channelID : String
  deriving Repr, DecidableEq

/-- The observables of one poke: the HTTP status written, the page tokens
requested from `changes.list`, the `UpdatePageToken` calls issued, the
store afterwards, and the change list handed to `SendNotification`
(`none` when it was not invoked). -/
structure HandlerOutcome where
  status : Nat
  apiTokens : List String
  updateCalls : List ChannelItem
  store : List ChannelItem
  sent : Option (List GChange)
  deriving Repr, DecidableEq

/-- Embeds `App.ChangesList` (`app.go` lines 571-581): look the channel up by id
(`FindOneByChannelID`), propagating a lookup failure before any Drive API
traffic, then run `changesList` on the found item.  The requested-token
trace is paired with the result. -/
def appChangesListByID (api : String → Except GdError ChangePage) (fuel : Nat)
    (upd : ChannelItem → List ChannelItem → StoreOutcome)
    (store : List ChannelItem) (channelID : String) (now : Int) :
    Option (ChangesListResult × List String) :=
  match findOneByChannelID store channelID with
  | .error e => some (⟨.error e, store, []⟩, [])
  | .ok item =>
    match appChangesList api fuel upd store item now with
    | none => none
    | some out => some (out, changesPullTokens api fuel item.pageToken)

/-- Embeds `App.handleWebhook` (current webhook routing file, lines 118-185):
404 unless the `User-Agent` begins with `APIs-Google;`; 200 for `sync` and
for any state other than `change`; for `change`, run `ChangesList`: a
`ChannelNotFoundError` is answered 200 (stale poke), any other error 500;
on success a nonempty change list is handed to `SendNotification` (the
`send` argument; 500 on its error), and the reply is 200. -/
def handleWebhook (api : String → Except GdError ChangePage) (fuel : Nat)
    (upd : ChannelItem → List ChannelItem → StoreOutcome)
    (send : List GChange → Except GdError Unit)
    (store : List ChannelItem) (now : Int) (req : WebhookRequest) :
    Option HandlerOutcome :=
  if ¬ goHasPre "APIs-Google;" req.userAgent then
    some ⟨404, [], [], store, none⟩
  else if req.state = "sync" then
    some ⟨200, [], [], store, none⟩
  else if req.state ≠ "change" then
    some ⟨200, [], [], store, none⟩
  else
    match appChangesListByID api fuel upd store req.channelID now with
    | none => none
    | some (out, tokens) =>
      match out.result with
      | .error (.channelNotFound _) => some ⟨200, tokens, out.updateCalls, out.store, none⟩
      | .error _ => some ⟨500, tokens, out.updateCalls, out.store, none⟩
      | .ok (changes, _) =>
        if changes.length > 0 then
          match send changes with
          | .error _ => some ⟨500, tokens, out.updateCalls, out.store, some changes⟩
          | .ok _ => some ⟨200, tokens, out.updateCalls, out.store, some changes⟩
        else
          some ⟨200, tokens, out.updateCalls, out.store, none⟩

/-! ## Specification-side definitions

These two definitions transcribe the specification's words (not the code)
and exist only to be compared against the code-derived definitions. -/

/-- The detail-type rule table exactly as the specification states it:
changeType "file" with removed true gives "File Removed", with removed
false and file.trashed true gives "File Move to trash", otherwise
"File Changed"; changeType "drive" with removed true gives
"Shared Drive Removed", otherwise "Drive Status Changed"; any other
changeType gives "Unexpected Changed". -/
def specDetailTypeTable (c : GChange) : String :=
  if c.changeType = "file" then
    if c.removed then "File Removed"
    else if (match c.file with | some f => f.trashed | none => false) then
      "File Move to trash"
    else "File Changed"
  else if c.changeType = "drive" then
    if c.removed then "Shared Drive Removed" else "Drive Status Changed"
  else "Unexpected Changed"

/-- The closed six-element detail-type set of the specification. -/
def sixDetailTypes : List String :=
  ["File Changed", "File Removed", "File Move to trash", "Shared Drive Removed",
   "Drive Status Changed", "Unexpected Changed"]

/-! ## Theorems -/

/-- Helper: `chunk10Go` flattens to the pending batch followed by the rest. -/
theorem chunk10Go_flatten (xs : List α) :
    ∀ (cur : List α) (k : Nat), (chunk10Go cur k xs).flatten = cur.reverse ++ xs := by
  induction xs with
  | nil => intro cur k; simp [chunk10Go]
  | cons x xs ih =>
    intro cur k
    cases k with
    | zero => simp [chunk10Go, ih]
    | succ k => simp [chunk10Go, ih]

/-- Helper: `chunk10` flattens back to the original list. -/
theorem chunk10_join (l : List α) : (chunk10 l).flatten = l := by
  cases l with
  | nil => rfl
  | cons x xs => simp [chunk10, chunk10Go_flatten]

/-- C8: the detail-type of every change matches the specification's rule
table exactly, every detail-type value is a member of the closed
six-element set, and therefore every entry emitted by the EventBridge
emitter carries a detail-type from that set. -/
theorem detailType_table_and_closed_set :
    (∀ c : GChange, DetailType (some c) = specDetailTypeTable c) ∧
    (∀ oc : Option GChange, sixDetailTypes.contains (DetailType oc) = true) ∧
    (∀ (put : List EBEntry → Except GdError (List PutResult))
        (eventBus : String) (item : ChannelItem) (details : List GDetail),
      ((ebSendChanges put eventBus item details).1.flatten.map (fun e => e.detailType)).all
        (fun s => sixDetailTypes.contains s) = true) := by
  have htab : ∀ c : GChange, DetailType (some c) = specDetailTypeTable c := by
    intro c
    simp only [DetailType, specDetailTypeTable, DetailTypeFileRemoved,
      DetailTypeFileTrashed, DetailTypeFileChanged, DetailTypeDriveRemoved,
      DetailTypeDriveChanged]
    split <;> simp_all
  have hmem : ∀ oc : Option GChange, sixDetailTypes.contains (DetailType oc) = true := by
    intro oc
    match oc with
    | none => decide
    | some c =>
      simp only [DetailType, DetailTypeFileRemoved, DetailTypeFileTrashed,
        DetailTypeFileChanged, DetailTypeDriveRemoved, DetailTypeDriveChanged]
      split
      · split <;> [decide; skip]
        split <;> decide
      · split <;> decide
      · decide
  refine ⟨htab, hmem, ?_⟩
  intro put eventBus item details
  simp only [ebSendChanges, chunk10_join, List.map_map, List.all_eq_true]
  intro s hs
  simp only [List.mem_map] at hs
  obtain ⟨d, _, rfl⟩ := hs
  exact hmem d.change

/-- C10: deleting a channel whose `ChannelID` is not stored succeeds with
an unchanged item list in the file-backed store, while the DynamoDB store
rejects it through its `attribute_exists(ChannelID)` condition, also
leaving the table unchanged. -/
theorem deleteChannel_missing_id (target : ChannelItem) (store : List ChannelItem)
    (h : ∀ c ∈ store, c.channelID ≠ target.channelID) :
    fileDeleteChannel target store = ⟨none, store⟩ ∧
    dynamoDeleteChannel target store = ⟨some .conditionalCheckFailed, store⟩ := by
  induction store with
  | nil => exact ⟨rfl, rfl⟩
  | cons c rest ih =>
    have hc : c.channelID ≠ target.channelID := h c (List.mem_cons_self c rest)
    have hrest := ih (fun x hx => h x (List.mem_cons_of_mem c hx))
    constructor
    · simp only [fileDeleteChannel, if_neg (Ne.symm hc), hrest.1]
    · simp only [dynamoDeleteChannel, if_neg hc, hrest.2]

/-- C10 witness: concrete store holding one unrelated channel. -/
theorem deleteChannel_missing_id_witness :
    fileDeleteChannel ⟨"gone", 0, "p", "r", "d", 0, 0, 0⟩
        [⟨"kept", 9, "tok", "res", "drv", 1, 2, 3⟩] =
      ⟨none, [⟨"kept", 9, "tok", "res", "drv", 1, 2, 3⟩]⟩ ∧
    dynamoDeleteChannel ⟨"gone", 0, "p", "r", "d", 0, 0, 0⟩
        [⟨"kept", 9, "tok", "res", "drv", 1, 2, 3⟩] =
      ⟨some .conditionalCheckFailed, [⟨"kept", 9, "tok", "res", "drv", 1, 2, 3⟩]⟩ :=
  deleteChannel_missing_id _ _ (by decide)

/-- C5 counterexample: a DriveID with one channel about to expire
(expiration 10, now 0, remaining 100) and one channel that is not
(expiration 1000): the maintenance pass still rotates the expiring
channel, although the claim says rotation is skipped whenever some
channel is not about to expire. -/
theorem maintenance_rotates_despite_fresh_channel :
    isAboutToExpired 0 100 ⟨"c2", 1000, "p2", "r2", "d1", 0, 0, 0⟩ = false ∧
    maintenanceRotationActions 0 100
        [⟨"c1", 10, "p1", "r1", "d1", 0, 0, 0⟩, ⟨"c2", 1000, "p2", "r2", "d1", 0, 0, 0⟩] =
      [.rotate ⟨"c1", 10, "p1", "r1", "d1", 0, 0, 0⟩] := by
  constructor
  · decide
  · decide

/-- C5 amended: the rotation phase acts whenever at least one channel of
the DriveID is about to expire, regardless of the other channels: the
first about-to-expire channel (in iteration order) is rotated and the
remaining about-to-expire channels are best-effort deleted; channels not
about to expire are never touched, and nothing happens only when no
channel is about to expire. -/
theorem maintenance_rotation_actions (now remaining : Int)
    (channels : List ChannelItem) :
    (maintenanceRotationActions now remaining channels = [] ↔
      channels.filter (isAboutToExpired now remaining) = []) ∧
    (∀ t rest, channels.filter (isAboutToExpired now remaining) = t :: rest →
      maintenanceRotationActions now remaining channels =
        .rotate t :: rest.map .deleteBestEffort) := by
  have hmain : ∀ t rest, channels.filter (isAboutToExpired now remaining) = t :: rest →
      maintenanceRotationActions now remaining channels =
        .rotate t :: rest.map .deleteBestEffort := by
    intro t rest hf
    unfold maintenanceRotationActions
    rw [hf]
    dsimp only
    rw [if_neg (fun hcond => List.cons_ne_nil t rest hcond.2)]
  refine ⟨⟨?_, ?_⟩, hmain⟩
  · intro h
    cases hfil : channels.filter (isAboutToExpired now remaining) with
    | nil => rfl
    | cons a l =>
      rw [hmain a l hfil] at h
      exact absurd h (List.cons_ne_nil _ _)
  · intro h
    unfold maintenanceRotationActions
    rw [h]
    dsimp only
    split <;> rfl

/-- C5 amended witness: one expiring and one fresh channel; the filter
selects exactly the expiring one and the action list rotates it. -/
theorem maintenance_rotation_actions_witness :
    maintenanceRotationActions 0 100
        [⟨"c1", 10, "p1", "r1", "d1", 0, 0, 0⟩, ⟨"c2", 1000, "p2", "r2", "d1", 0, 0, 0⟩] =
      [.rotate ⟨"c1", 10, "p1", "r1", "d1", 0, 0, 0⟩] :=
  (maintenance_rotation_actions 0 100
      [⟨"c1", 10, "p1", "r1", "d1", 0, 0, 0⟩, ⟨"c2", 1000, "p2", "r2", "d1", 0, 0, 0⟩]).2
    ⟨"c1", 10, "p1", "r1", "d1", 0, 0, 0⟩ [] (by decide)

/-- C9 counterexample: a copy attempt for a plain `image/png` file under a
rule whose export format is set to `csv`: the claim predicts the export
endpoint is called (export field is set), but the code calls the direct
download endpoint — `DownloadOrExport` consults the export format only for
Google Workspace MIME types. -/
theorem copier_export_field_ignored_for_regular_files :
    (⟨false, "csv"⟩ : S3CopyRule).exportFormat ≠ "" ∧
    getFileMimeType ⟨"s", none, none,
        some ⟨"drive#change", "file", "t0", false, "f1",
          some ⟨"f1", "pic", "image/png", "", "", "", false, none, none⟩, "", none⟩⟩ =
      "image/png" ∧
    isGoogleWorkspaceFile "image/png" = false ∧
    copierDownloadStep ⟨false, "csv"⟩ ⟨"s", none, none,
        some ⟨"drive#change", "file", "t0", false, "f1",
          some ⟨"f1", "pic", "image/png", "", "", "", false, none, none⟩, "", none⟩⟩ =
      .ok (.downloadCall "f1") := by
  refine ⟨by decide, rfl, by decide, ?_⟩
  rfl

/-- C9 amended: for a copy attempt on a non-removed change with a matched
non-skip rule and a resolvable file id, the copier calls the upstream
export endpoint exactly when the file's MIME type has the
`application/vnd.google-apps.` prefix, exporting with the MIME type
mapped from the rule's format (default `pdf`); for every other MIME type
it calls the direct-download endpoint, whether or not the rule's export
field is set. -/
theorem copier_download_selection (rule : S3CopyRule) (detail : GDetail)
    (h : getFileID detail ≠ "") :
    (isGoogleWorkspaceFile (getFileMimeType detail) = false →
      copierDownloadStep rule detail = .ok (.downloadCall (getFileID detail))) ∧
    (isGoogleWorkspaceFile (getFileMimeType detail) = true → rule.exportFormat = "" →
      copierDownloadStep rule detail = .ok (.exportCall (getFileID detail) "application/pdf")) ∧
    (isGoogleWorkspaceFile (getFileMimeType detail) = true → ∀ m,
      exportMIMETypes (goToLower (if rule.exportFormat = "" then "pdf" else rule.exportFormat))
        = some m →
      copierDownloadStep rule detail = .ok (.exportCall (getFileID detail) m)) ∧
    (∀ fid m, copierDownloadStep rule detail = .ok (.exportCall fid m) →
      isGoogleWorkspaceFile (getFileMimeType detail) = true) := by
  unfold copierDownloadStep
  rw [if_neg h]
  have hexp : isGoogleWorkspaceFile (getFileMimeType detail) = true → ∀ m,
      exportMIMETypes (goToLower (if rule.exportFormat = "" then "pdf" else rule.exportFormat))
        = some m →
      downloadOrExport (getFileID detail) (getFileMimeType detail) rule.exportFormat
        = .ok (.exportCall (getFileID detail) m) := by
    intro hw m hm
    unfold downloadOrExport
    rw [hw, if_pos rfl]
    simp only []
    rw [hm]
  refine ⟨?_, ?_, hexp, ?_⟩
  · intro hw
    unfold downloadOrExport
    rw [hw]
    rfl
  · intro hw he
    refine hexp hw "application/pdf" ?_
    rw [he, if_pos rfl]
    rfl
  · intro fid m hres
    by_contra hnw
    rw [Bool.not_eq_true] at hnw
    unfold downloadOrExport at hres
    rw [hnw] at hres
    simp at hres

/-- C9 amended witness: a Google Sheets file under a rule exporting `csv`
resolves to the export endpoint with MIME `text/csv`. -/
theorem copier_download_selection_witness :
    copierDownloadStep ⟨false, "csv"⟩ ⟨"s", none, none,
        some ⟨"drive#change", "file", "t0", false, "f2",
          some ⟨"f2", "sheet", "application/vnd.google-apps.spreadsheet",
            "", "", "", false, none, none⟩, "", none⟩⟩ =
      .ok (.exportCall "f2" "text/csv") :=
  (copier_download_selection ⟨false, "csv"⟩ ⟨"s", none, none,
      some ⟨"drive#change", "file", "t0", false, "f2",
        some ⟨"f2", "sheet", "application/vnd.google-apps.spreadsheet",
          "", "", "", false, none, none⟩, "", none⟩⟩ (by decide)).2.2.1
    (by decide) "text/csv" rfl

/-- C7 counterexample: on an empty change list the file emitter still
executes `os.OpenFile(..., O_CREATE, ...)` — the event file is opened, and
created when absent — contradicting the claim that no file is opened or
created. -/
theorem fileSend_empty_list_opens_file :
    (fileSendChanges (.ok ()) (fun _ => none) []).openAttempted = true := by
  rfl

/-- C7 amended: on an empty change list the event-bus emitter performs no
`PutEvents` call and returns `nil`; the file emitter writes no records and
returns `nil` when the open succeeds (otherwise the open error), but it
does open — creating when absent — the event file unconditionally. -/
theorem sendChanges_empty_list (put : List EBEntry → Except GdError (List PutResult))
    (eventBus : String) (item : ChannelItem) (openRes : Except GdError Unit)
    (encodeErr : GDetail → Option GdError) :
    ebSendChanges put eventBus item [] = ([], none) ∧
    (fileSendChanges openRes encodeErr []).openAttempted = true ∧
    (fileSendChanges openRes encodeErr []).written = [] ∧
    (fileSendChanges openRes encodeErr []).result =
      (match openRes with | .error e => some e | .ok _ => none) := by
  refine ⟨rfl, ?_, ?_, ?_⟩ <;> cases openRes <;> rfl

/-- When no record collides, `FileStorage.SaveChannel` appends. -/
theorem fileSaveChannelItems_no_collision (item : ChannelItem) :
    ∀ store : List ChannelItem, (∀ c ∈ store, c.channelID ≠ item.channelID) →
      fileSaveChannelItems item store = store ++ [item] := by
  intro store
  induction store with
  | nil => intro _; rfl
  | cons c rest ih =>
    intro h
    have hc : c.channelID ≠ item.channelID := h c (List.mem_cons_self c rest)
    simp only [fileSaveChannelItems, if_neg hc, List.cons_append, List.cons.injEq, true_and]
    exact ih (fun x hx => h x (List.mem_cons_of_mem c hx))

/-- Helper: `FileStorage.SaveChannel` replaces the first colliding record. -/
theorem fileSaveChannelItems_collision (item stored : ChannelItem)
    (post : List ChannelItem) (hid : stored.channelID = item.channelID) :
    ∀ pre : List ChannelItem, (∀ c ∈ pre, c.channelID ≠ item.channelID) →
      fileSaveChannelItems item (pre ++ stored :: post) = pre ++ item :: post := by
  intro pre
  induction pre with
  | nil => intro _; simp [fileSaveChannelItems, hid]
  | cons c rest ih =>
    intro h
    have hc : c.channelID ≠ item.channelID := h c (List.mem_cons_self c rest)
    simp only [List.cons_append, fileSaveChannelItems, if_neg hc, List.cons.injEq, true_and]
    exact ih (fun x hx => h x (List.mem_cons_of_mem c hx))

/-- C4 counterexample: saving a channel whose `ChannelID` already exists
in the file-backed store succeeds (`nil`, not `ChannelAlreadyExists`) and
overwrites the stored record. -/
theorem fileSave_overwrites_existing_channel :
    (⟨"c", 1, "old", "r1", "d1", 0, 0, 0⟩ : ChannelItem).channelID =
      (⟨"c", 2, "new", "r2", "d2", 0, 0, 9⟩ : ChannelItem).channelID ∧
    fileSaveChannel ⟨"c", 2, "new", "r2", "d2", 0, 0, 9⟩
        [⟨"c", 1, "old", "r1", "d1", 0, 0, 0⟩] =
      ⟨none, [⟨"c", 2, "new", "r2", "d2", 0, 0, 9⟩]⟩ := by
  exact ⟨rfl, by decide⟩

/-- C4 amended: `SaveChannel` has create-if-not-exists semantics only in
the DynamoDB implementation — a colliding `ChannelID` fails with
`ChannelAlreadyExists` and leaves the table unchanged, otherwise the
channel is inserted.  The file-backed implementation never fails: a
colliding `ChannelID` silently overwrites the stored record, and otherwise
the channel is appended. -/
theorem saveChannel_semantics (item : ChannelItem) (store : List ChannelItem) :
    (store.any (fun c => c.channelID = item.channelID) = true →
      dynamoSaveChannel item store = ⟨some (.channelAlreadyExists item.channelID), store⟩) ∧
    (store.any (fun c => c.channelID = item.channelID) = false →
      dynamoSaveChannel item store = ⟨none, store ++ [item]⟩) ∧
    (fileSaveChannel item store).err = none ∧
    ((∀ c ∈ store, c.channelID ≠ item.channelID) →
      (fileSaveChannel item store).items = store ++ [item]) ∧
    (∀ pre stored post, store = pre ++ stored :: post →
      (∀ c ∈ pre, c.channelID ≠ item.channelID) → stored.channelID = item.channelID →
      (fileSaveChannel item store).items = pre ++ item :: post) := by
  refine ⟨?_, ?_, rfl, ?_, ?_⟩
  · intro h
    simp only [dynamoSaveChannel, h, if_true]
  · intro h
    simp only [dynamoSaveChannel, h, Bool.false_eq_true, if_false]
  · intro h
    exact fileSaveChannelItems_no_collision item store h
  · intro pre stored post hsplit hpre hid
    subst hsplit
    exact fileSaveChannelItems_collision item stored post hid pre hpre

/-- C4 amended witness: a fresh id is appended by both backends, and a
colliding id is rejected by DynamoDB but overwritten by the file store. -/
theorem saveChannel_semantics_witness :
    dynamoSaveChannel ⟨"c", 2, "new", "r2", "d2", 0, 0, 9⟩
        [⟨"c", 1, "old", "r1", "d1", 0, 0, 0⟩] =
      ⟨some (.channelAlreadyExists "c"), [⟨"c", 1, "old", "r1", "d1", 0, 0, 0⟩]⟩ ∧
    (fileSaveChannel ⟨"c", 2, "new", "r2", "d2", 0, 0, 9⟩
        [⟨"c", 1, "old", "r1", "d1", 0, 0, 0⟩]).items =
      [⟨"c", 2, "new", "r2", "d2", 0, 0, 9⟩] ∧
    dynamoSaveChannel ⟨"c9", 2, "new", "r2", "d2", 0, 0, 9⟩
        [⟨"c", 1, "old", "r1", "d1", 0, 0, 0⟩] =
      ⟨none, [⟨"c", 1, "old", "r1", "d1", 0, 0, 0⟩, ⟨"c9", 2, "new", "r2", "d2", 0, 0, 9⟩]⟩ := by
  refine ⟨?_, ?_, ?_⟩
  · exact (saveChannel_semantics ⟨"c", 2, "new", "r2", "d2", 0, 0, 9⟩
      [⟨"c", 1, "old", "r1", "d1", 0, 0, 0⟩]).1 (by decide)
  · exact (saveChannel_semantics ⟨"c", 2, "new", "r2", "d2", 0, 0, 9⟩
      [⟨"c", 1, "old", "r1", "d1", 0, 0, 0⟩]).2.2.2.2 [] ⟨"c", 1, "old", "r1", "d1", 0, 0, 0⟩ []
      rfl (by decide) (by decide)
  · exact (saveChannel_semantics ⟨"c9", 2, "new", "r2", "d2", 0, 0, 9⟩
      [⟨"c", 1, "old", "r1", "d1", 0, 0, 0⟩]).2.1 (by decide)

/-- Helper: `DynamoDBStorage.UpdatePageToken` on a store without the key fails
with the condition error and leaves the store unchanged. -/
theorem dynamoUpdate_not_found (target : ChannelItem) :
    ∀ store : List ChannelItem, (∀ c ∈ store, c.channelID ≠ target.channelID) →
      dynamoUpdatePageToken target store = ⟨some .conditionalCheckFailed, store⟩ := by
  intro store
  induction store with
  | nil => intro _; rfl
  | cons c rest ih =>
    intro h
    have hc : c.channelID ≠ target.channelID := h c (List.mem_cons_self c rest)
    simp only [dynamoUpdatePageToken, if_neg hc,
      ih (fun x hx => h x (List.mem_cons_of_mem c hx))]

/-- Helper: `DynamoDBStorage.UpdatePageToken` on the keyed record: success with
only `PageToken` and `UpdatedAt` rewritten when the stored `UpdatedAt` is
strictly older, condition failure with an unchanged store otherwise. -/
theorem dynamoUpdate_found (target stored : ChannelItem) (post : List ChannelItem)
    (hid : stored.channelID = target.channelID) :
    ∀ pre : List ChannelItem, (∀ c ∈ pre, c.channelID ≠ target.channelID) →
      dynamoUpdatePageToken target (pre ++ stored :: post) =
        if stored.updatedAt < target.updatedAt then
          ⟨none, pre ++
            { stored with pageToken := target.pageToken, updatedAt := target.updatedAt } :: post⟩
        else
          ⟨some .conditionalCheckFailed, pre ++ stored :: post⟩ := by
  intro pre
  induction pre with
  | nil =>
    intro _
    by_cases hlt : stored.updatedAt < target.updatedAt
    · simp only [List.nil_append, dynamoUpdatePageToken, if_pos hid, if_pos hlt]
    · simp only [List.nil_append, dynamoUpdatePageToken, if_pos hid, if_neg hlt]
  | cons c rest ih =>
    intro h
    have hc : c.channelID ≠ target.channelID := h c (List.mem_cons_self c rest)
    have hrest := ih (fun x hx => h x (List.mem_cons_of_mem c hx))
    by_cases hlt : stored.updatedAt < target.updatedAt
    · simp only [List.cons_append, dynamoUpdatePageToken, if_neg hc, List.append_eq,
        hrest, if_pos hlt]
    · simp only [List.cons_append, dynamoUpdatePageToken, if_neg hc, List.append_eq,
        hrest, if_neg hlt]

/-- Helper: `FileStorage.UpdatePageToken` on a store without the id fails with
`ChannelNotFoundError` and leaves the store unchanged. -/
theorem fileUpdate_not_found (target : ChannelItem) :
    ∀ store : List ChannelItem, (∀ c ∈ store, c.channelID ≠ target.channelID) →
      fileUpdatePageToken target store =
        ⟨some (.channelNotFound target.channelID), store⟩ := by
  intro store
  induction store with
  | nil => intro _; rfl
  | cons c rest ih =>
    intro h
    have hc : c.channelID ≠ target.channelID := h c (List.mem_cons_self c rest)
    simp only [fileUpdatePageToken, if_neg hc,
      ih (fun x hx => h x (List.mem_cons_of_mem c hx))]

/-- Helper: `FileStorage.UpdatePageToken` on the first matching record: always
succeeds and rewrites only `PageToken` (not `UpdatedAt`). -/
theorem fileUpdate_found (target stored : ChannelItem) (post : List ChannelItem)
    (hid : stored.channelID = target.channelID) :
    ∀ pre : List ChannelItem, (∀ c ∈ pre, c.channelID ≠ target.channelID) →
      fileUpdatePageToken target (pre ++ stored :: post) =
        ⟨none, pre ++ { stored with pageToken := target.pageToken } :: post⟩ := by
  intro pre
  induction pre with
  | nil =>
    intro _
    simp only [List.nil_append, fileUpdatePageToken, if_pos hid]
  | cons c rest ih =>
    intro h
    have hc : c.channelID ≠ target.channelID := h c (List.mem_cons_self c rest)
    simp only [List.cons_append, fileUpdatePageToken, if_neg hc, List.append_eq,
      ih (fun x hx => h x (List.mem_cons_of_mem c hx))]

/-- C1 counterexample: in the file-backed store, `UpdatePageToken`
succeeds although the stored `UpdatedAt` (5) is not strictly less than the
incoming `UpdatedAt` (5), and the successful write does not set
`UpdatedAt` — only `PageToken` changes. -/
theorem fileUpdate_ignores_updatedAt_guard :
    ¬ ((⟨"c", 0, "old", "r", "d", 0, 0, 5⟩ : ChannelItem).updatedAt <
        (⟨"c", 0, "new", "r", "d", 0, 0, 5⟩ : ChannelItem).updatedAt) ∧
    fileUpdatePageToken ⟨"c", 0, "new", "r", "d", 0, 0, 5⟩
        [⟨"c", 0, "old", "r", "d", 0, 0, 5⟩] =
      ⟨none, [⟨"c", 0, "new", "r", "d", 0, 0, 5⟩]⟩ := by
  exact ⟨by decide, by decide⟩

/-- C1 amended: the DynamoDB implementation of `UpdatePageToken` succeeds
exactly when a stored channel with the same `ChannelID` exists and its
`UpdatedAt` is strictly less than the incoming one; on success only that
record's `PageToken` and `UpdatedAt` change and on failure the table is
unchanged.  The file-backed implementation succeeds whenever a record with
the same `ChannelID` exists, with no `UpdatedAt` comparison; on success
only that record's `PageToken` changes (`UpdatedAt` is left as stored) and
on a missing id the store is unchanged. -/
theorem updatePageToken_semantics (target stored : ChannelItem)
    (pre post store : List ChannelItem)
    (hpre : ∀ c ∈ pre, c.channelID ≠ target.channelID)
    (hid : stored.channelID = target.channelID)
    (hmiss : ∀ c ∈ store, c.channelID ≠ target.channelID) :
    (stored.updatedAt < target.updatedAt →
      dynamoUpdatePageToken target (pre ++ stored :: post) =
        ⟨none, pre ++
          { stored with pageToken := target.pageToken, updatedAt := target.updatedAt } :: post⟩) ∧
    (¬ stored.updatedAt < target.updatedAt →
      dynamoUpdatePageToken target (pre ++ stored :: post) =
        ⟨some .conditionalCheckFailed, pre ++ stored :: post⟩) ∧
    dynamoUpdatePageToken target store = ⟨some .conditionalCheckFailed, store⟩ ∧
    fileUpdatePageToken target (pre ++ stored :: post) =
      ⟨none, pre ++ { stored with pageToken := target.pageToken } :: post⟩ ∧
    fileUpdatePageToken target store =
      ⟨some (.channelNotFound target.channelID), store⟩ := by
  refine ⟨?_, ?_, dynamoUpdate_not_found target store hmiss,
    fileUpdate_found target stored post hid pre hpre,
    fileUpdate_not_found target store hmiss⟩
  · intro hlt
    rw [dynamoUpdate_found target stored post hid pre hpre, if_pos hlt]
  · intro hge
    rw [dynamoUpdate_found target stored post hid pre hpre, if_neg hge]

/-- C1 amended witness: one stored channel with `UpdatedAt = 3` and an
incoming update with `UpdatedAt = 7`; a store without the target id for
the failure cases. -/
theorem updatePageToken_semantics_witness :
    dynamoUpdatePageToken ⟨"c", 0, "new", "r", "d", 0, 0, 7⟩
        [⟨"c", 0, "old", "r", "d", 0, 0, 3⟩] =
      ⟨none, [⟨"c", 0, "new", "r", "d", 0, 0, 7⟩]⟩ ∧
    fileUpdatePageToken ⟨"c", 0, "new", "r", "d", 0, 0, 7⟩
        [⟨"c", 0, "old", "r", "d", 0, 0, 3⟩] =
      ⟨none, [⟨"c", 0, "new", "r", "d", 0, 0, 3⟩]⟩ ∧
    dynamoUpdatePageToken ⟨"c", 0, "new", "r", "d", 0, 0, 7⟩
        [⟨"other", 0, "p", "r", "d", 0, 0, 0⟩] =
      ⟨some .conditionalCheckFailed, [⟨"other", 0, "p", "r", "d", 0, 0, 0⟩]⟩ := by
  have h := updatePageToken_semantics ⟨"c", 0, "new", "r", "d", 0, 0, 7⟩
    ⟨"c", 0, "old", "r", "d", 0, 0, 3⟩ [] []
    [⟨"other", 0, "p", "r", "d", 0, 0, 0⟩]
    (by intro c hc; cases hc) rfl (by decide)
  exact ⟨h.1 (by decide), h.2.2.2.1, h.2.2.1⟩

/-- A successful run of the paging loop reads a nonempty page sequence;
the collected changes are the in-order concatenation of the pages'
changes, and the returned start token is the final page's
`newStartPageToken`. -/
theorem changesPull_pages (api : String → Except GdError ChangePage) :
    ∀ (fuel : Nat) (token : String) (cs : List GChange) (ns : String),
      changesPull api fuel token = some (.ok (cs, ns)) →
      ∃ ps, changesPullPages api fuel token = some ps ∧
        cs = (ps.map (fun p => p.changes)).flatten ∧
        ps.getLast?.map (fun p => p.newStartPageToken) = some ns := by
  intro fuel
  induction fuel with
  | zero => intro token cs ns h; simp [changesPull] at h
  | succ fuel ih =>
    intro token cs ns h
    unfold changesPull at h
    unfold changesPullPages
    cases hapi : api token with
    | error e => rw [hapi] at h; simp at h
    | ok page =>
      rw [hapi] at h
      dsimp only at h ⊢
      by_cases hnext : page.nextPageToken = ""
      · rw [if_pos hnext] at h ⊢
        have hinj := Except.ok.inj (Option.some.inj h)
        have hcs : page.changes = cs := congrArg Prod.fst hinj
        have hns : page.newStartPageToken = ns := congrArg Prod.snd hinj
        exact ⟨[page], rfl, by rw [← hcs]; simp, by simp [hns]⟩
      · rw [if_neg hnext] at h ⊢
        cases hrec : changesPull api fuel page.nextPageToken with
        | none => rw [hrec] at h; simp at h
        | some r =>
          rw [hrec] at h
          cases r with
          | error e => simp at h
          | ok pr =>
            obtain ⟨rest, newStart⟩ := pr
            have hinj := Except.ok.inj (Option.some.inj h)
            have hcs : page.changes ++ rest = cs := congrArg Prod.fst hinj
            have hns : newStart = ns := congrArg Prod.snd hinj
            obtain ⟨ps, hps, hflat, hlast⟩ := ih page.nextPageToken rest newStart hrec
            refine ⟨page :: ps, ?_, ?_, ?_⟩
            · rw [hps]; rfl
            · simp only [List.map_cons, List.flatten_cons, hflat.symm, hcs]
            · cases ps with
              | nil => simp at hlast
              | cons q qs => rw [List.getLast?_cons_cons, hlast, hns]

/-- C2: a pull over a channel that returns without error returns the
concatenation, in page order, of the changes of every page read, and
issues exactly one `UpdatePageToken` call, which succeeds, whose
`PageToken` is the final page's `newStartPageToken` and whose `UpdatedAt`
is the pull's completion time; all other channel fields are carried over
from the pulled channel. -/
theorem changesList_success (api : String → Except GdError ChangePage) (fuel : Nat)
    (upd : ChannelItem → List ChannelItem → StoreOutcome)
    (store : List ChannelItem) (item : ChannelItem) (now : Int)
    (out : ChangesListResult) (cs : List GChange) (ni : ChannelItem)
    (hrun : appChangesList api fuel upd store item now = some out)
    (hok : out.result = .ok (cs, ni)) :
    ∃ ps, changesPullPages api fuel item.pageToken = some ps ∧
      cs = (ps.map (fun p => p.changes)).flatten ∧
      ps.getLast?.map (fun p => p.newStartPageToken) = some ni.pageToken ∧
      ni = { item with pageToken := ni.pageToken, updatedAt := now } ∧
      ni.updatedAt = now ∧
      out.updateCalls = [ni] ∧
      (upd ni store).err = none ∧
      out.store = (upd ni store).items := by
  unfold appChangesList at hrun
  cases hpull : changesPull api fuel item.pageToken with
  | none => rw [hpull] at hrun; simp at hrun
  | some r =>
    rw [hpull] at hrun
    cases r with
    | error e =>
      dsimp only at hrun
      rw [(Option.some.inj hrun).symm] at hok
      simp at hok
    | ok pr =>
      obtain ⟨changes, newStart⟩ := pr
      dsimp only at hrun
      cases herr : (upd { item with pageToken := newStart, updatedAt := now } store).err with
      | some e =>
        rw [herr] at hrun
        rw [(Option.some.inj hrun).symm] at hok
        simp at hok
      | none =>
        rw [herr] at hrun
        rw [(Option.some.inj hrun).symm] at hok
        have hinj := Except.ok.inj hok
        have hcs : changes = cs := congrArg Prod.fst hinj
        have hni : { item with pageToken := newStart, updatedAt := now } = ni :=
          congrArg Prod.snd hinj
        obtain ⟨ps, hps, hflat, hlast⟩ := changesPull_pages api fuel item.pageToken
          changes newStart hpull
        subst hcs
        subst hni
        refine ⟨ps, hps, hflat, hlast, rfl, rfl, ?_, herr, ?_⟩
        · rw [(Option.some.inj hrun).symm]
        · rw [(Option.some.inj hrun).symm]

/-- A two-page Drive API run used to witness the pull theorems. -/
def pullApiTwoPages : String → Except GdError ChangePage :=
  fun t =>
    if t = "p0" then
      .ok ⟨[⟨"drive#change", "file", "t1", false, "f1", none, "", none⟩], "p1", "s1"⟩
    else if t = "p1" then
      .ok ⟨[⟨"drive#change", "file", "t2", false, "f2", none, "", none⟩], "", "s2"⟩
    else
      .error (.apiError "unexpected page token")

/-- The channel the pull witnesses start from. -/
def pullItem : ChannelItem := ⟨"chan", 0, "p0", "res", "drv", 0, 0, 0⟩

/-- C2 witness: a two-page pull over `pullItem` against the file store;
the changes concatenate in page order, the final page's
`newStartPageToken` (`"s2"`) is written with `UpdatedAt = 99`. -/
theorem changesList_success_witness :
    ∃ ps, changesPullPages pullApiTwoPages 2 pullItem.pageToken = some ps ∧
      [⟨"drive#change", "file", "t1", false, "f1", none, "", none⟩,
       ⟨"drive#change", "file", "t2", false, "f2", none, "", none⟩] =
        (ps.map (fun p => p.changes)).flatten ∧
      ps.getLast?.map (fun p => p.newStartPageToken) =
        some (⟨"chan", 0, "s2", "res", "drv", 0, 0, 99⟩ : ChannelItem).pageToken ∧
      (⟨"chan", 0, "s2", "res", "drv", 0, 0, 99⟩ : ChannelItem) =
        { pullItem with
            pageToken := (⟨"chan", 0, "s2", "res", "drv", 0, 0, 99⟩ : ChannelItem).pageToken,
            updatedAt := 99 } ∧
      (⟨"chan", 0, "s2", "res", "drv", 0, 0, 99⟩ : ChannelItem).updatedAt = 99 ∧
      (⟨.ok ([⟨"drive#change", "file", "t1", false, "f1", none, "", none⟩,
              ⟨"drive#change", "file", "t2", false, "f2", none, "", none⟩],
             ⟨"chan", 0, "s2", "res", "drv", 0, 0, 99⟩),
         [⟨"chan", 0, "s2", "res", "drv", 0, 0, 0⟩],
         [⟨"chan", 0, "s2", "res", "drv", 0, 0, 99⟩]⟩ : ChangesListResult).updateCalls =
        [⟨"chan", 0, "s2", "res", "drv", 0, 0, 99⟩] ∧
      (fileUpdatePageToken ⟨"chan", 0, "s2", "res", "drv", 0, 0, 99⟩ [pullItem]).err = none ∧
      (⟨.ok ([⟨"drive#change", "file", "t1", false, "f1", none, "", none⟩,
              ⟨"drive#change", "file", "t2", false, "f2", none, "", none⟩],
             ⟨"chan", 0, "s2", "res", "drv", 0, 0, 99⟩),
         [⟨"chan", 0, "s2", "res", "drv", 0, 0, 0⟩],
         [⟨"chan", 0, "s2", "res", "drv", 0, 0, 99⟩]⟩ : ChangesListResult).store =
        (fileUpdatePageToken ⟨"chan", 0, "s2", "res", "drv", 0, 0, 99⟩ [pullItem]).items :=
  changesList_success pullApiTwoPages 2 fileUpdatePageToken [pullItem] pullItem 99
    ⟨.ok ([⟨"drive#change", "file", "t1", false, "f1", none, "", none⟩,
           ⟨"drive#change", "file", "t2", false, "f2", none, "", none⟩],
          ⟨"chan", 0, "s2", "res", "drv", 0, 0, 99⟩),
      [⟨"chan", 0, "s2", "res", "drv", 0, 0, 0⟩],
      [⟨"chan", 0, "s2", "res", "drv", 0, 0, 99⟩]⟩
    [⟨"drive#change", "file", "t1", false, "f1", none, "", none⟩,
     ⟨"drive#change", "file", "t2", false, "f2", none, "", none⟩]
    ⟨"chan", 0, "s2", "res", "drv", 0, 0, 99⟩ rfl rfl

/-- C3: when some page request of a pull fails, the pull returns that
error, returns no changes, issues no `UpdatePageToken` call, and the
store — hence the stored page token — is unchanged. -/
theorem changesList_page_error (api : String → Except GdError ChangePage) (fuel : Nat)
    (upd : ChannelItem → List ChannelItem → StoreOutcome)
    (store : List ChannelItem) (item : ChannelItem) (now : Int) (e : GdError)
    (h : changesPull api fuel item.pageToken = some (.error e)) :
    appChangesList api fuel upd store item now = some ⟨.error e, store, []⟩ := by
  unfold appChangesList
  rw [h]

/-- C3 witness: the second page request fails; the pull returns the error
with no changes, no update call and the store unchanged. -/
theorem changesList_page_error_witness :
    appChangesList
        (fun t =>
          if t = "p0" then
            .ok ⟨[⟨"drive#change", "file", "t1", false, "f1", none, "", none⟩], "p1", "s1"⟩
          else .error (.apiError "boom"))
        2 fileUpdatePageToken [pullItem] pullItem 7 =
      some ⟨.error (.apiError "boom"), [pullItem], []⟩ :=
  changesList_page_error
    (fun t =>
      if t = "p0" then
        .ok ⟨[⟨"drive#change", "file", "t1", false, "f1", none, "", none⟩], "p1", "s1"⟩
      else .error (.apiError "boom"))
    2 fileUpdatePageToken [pullItem] pullItem 7 (.apiError "boom") rfl

/-- Helper: `FindOneByChannelID` on a store without the id reports not-found. -/
theorem findOne_not_found (channelID : String) :
    ∀ store : List ChannelItem, (∀ c ∈ store, c.channelID ≠ channelID) →
      findOneByChannelID store channelID = .error (.channelNotFound channelID) := by
  intro store
  induction store with
  | nil => intro _; rfl
  | cons c rest ih =>
    intro h
    have hc : c.channelID ≠ channelID := h c (List.mem_cons_self c rest)
    simp only [findOneByChannelID, if_neg hc]
    exact ih (fun x hx => h x (List.mem_cons_of_mem c hx))

/-- C6: an inbound poke with a `User-Agent` beginning `APIs-Google;`,
resource state `change`, and a channel id not present in the store is
answered with HTTP 200; no `changes.list` request is made, no
`UpdatePageToken` call is issued, the store is unchanged, and nothing is
emitted. -/
theorem webhook_unknown_channel (api : String → Except GdError ChangePage) (fuel : Nat)
    (upd : ChannelItem → List ChannelItem → StoreOutcome)
    (send : List GChange → Except GdError Unit)
    (store : List ChannelItem) (now : Int) (req : WebhookRequest)
    (hua : goHasPre "APIs-Google;" req.userAgent = true)
    (hstate : req.state = "change")
    (hmiss : ∀ c ∈ store, c.channelID ≠ req.channelID) :
    handleWebhook api fuel upd send store now req = some ⟨200, [], [], store, none⟩ := by
  unfold handleWebhook
  rw [if_neg (not_not_intro hua)]
  rw [if_neg (show ¬ req.state = "sync" by rw [hstate]; decide)]
  rw [if_neg (fun hn => hn hstate)]
  unfold appChangesListByID
  rw [findOne_not_found req.channelID store hmiss]

/-- C6 witness: a poke for the unknown channel id `nope` against a store
holding one channel `c1`. -/
theorem webhook_unknown_channel_witness :
    handleWebhook (fun _ => .error (.apiError "unused")) 1 fileUpdatePageToken
        (fun _ => .ok ()) [⟨"c1", 5, "p", "r", "d", 0, 0, 0⟩] 0
        ⟨"APIs-Google; scheduler", "change", "nope"⟩ =
      some ⟨200, [], [], [⟨"c1", 5, "p", "r", "d", 0, 0, 0⟩], none⟩ :=
  webhook_unknown_channel (fun _ => .error (.apiError "unused")) 1 fileUpdatePageToken
    (fun _ => .ok ()) [⟨"c1", 5, "p", "r", "d", 0, 0, 0⟩] 0
    ⟨"APIs-Google; scheduler", "change", "nope"⟩ (by decide) rfl (by decide)

end Gdnotify
